import Mathlib

/-!
Shallow embedding of the rocket-diesel crate (src/error.rs, src/result.rs,
src/settings.rs, src/connection.rs, src/locked_connection.rs,
src/database.rs) and proofs about its claimed behaviour.

External collaborators (the `url` crate's parser, diesel's native
`establish` calls, the boxed `dyn Error` payloads) are modelled as
parameters/data carrying exactly the interface the crate reads from them:
a parser is a function `String → Except Cause Url`, an establisher returns
either a connection value or an error, and a boxed error is a value with a
`description` string.  Mutex/RwLock poisoning is modelled as a boolean flag
on the state (nothing in the sequential model ever sets it; it covers the
poisoned branch of `lock()`).  Rust panics (`unwrap`, `unimplemented!`)
are modelled by the `PanicOr` outcome type.
-/

namespace RocketDiesel

/-- Model of a boxed `dyn std::error::Error` payload: the crate only ever
reads its `description()` string. -/
structure Cause where
  description : String
deriving DecidableEq

/-- src/error.rs `ErrorKind`. -/
inductive ErrorKind
  | FormatError
  | MissingValue
  | UnimplementedFormat
  | Diesel
  | Other
deriving DecidableEq

/-- src/error.rs `ErrorKind::as_str`. -/
def ErrorKind.as_str : ErrorKind → String
  | .FormatError => "format_error"
  | .MissingValue => "missing_value"
  | .UnimplementedFormat => "unimplemented_format"
  | .Diesel => "diesel"
  | .Other => "other"

/-- src/error.rs `enum Repr` (the `Custom` variant's box is flattened:
it holds the kind and the boxed payload). -/
inductive ErrorRepr
  | Simple (kind : ErrorKind)
  | Custom (kind : ErrorKind) (error : Cause)
deriving DecidableEq

/-- src/error.rs `struct Error`. -/
structure Error where
  repr : ErrorRepr
deriving DecidableEq

/-- src/error.rs `impl From<ErrorKind> for Error`. -/
def Error.fromKind (kind : ErrorKind) : Error :=
  ⟨.Simple kind⟩

/-- src/error.rs `Error::new` (via `Error::_new`): stores the kind plus the
boxed payload in the `Custom` representation. -/
def Error.new (kind : ErrorKind) (error : Cause) : Error :=
  ⟨.Custom kind error⟩

/-- src/error.rs `impl From<diesel::result::Error> for Error`:
`Self::new(ErrorKind::Diesel, err.description())`. -/
def Error.fromDiesel (err : Cause) : Error :=
  Error.new .Diesel ⟨err.description⟩

/-- src/error.rs `Error::get_ref`. -/
def Error.get_ref : Error → Option Cause
  | ⟨.Simple _⟩ => none
  | ⟨.Custom _ c⟩ => some c

/-- src/error.rs `Error::get_mut`. -/
def Error.get_mut : Error → Option Cause
  | ⟨.Simple _⟩ => none
  | ⟨.Custom _ c⟩ => some c

/-- src/error.rs `Error::into_inner`. -/
def Error.into_inner : Error → Option Cause
  | ⟨.Simple _⟩ => none
  | ⟨.Custom _ c⟩ => some c

/-- src/error.rs `Error::kind`. -/
def Error.kind : Error → ErrorKind
  | ⟨.Simple kind⟩ => kind
  | ⟨.Custom kind _⟩ => kind

/-- src/error.rs `impl error::Error for Error`, `description`: the static
per-kind string for `Simple`, the payload's description for `Custom`. -/
def Error.description : Error → String
  | ⟨.Simple kind⟩ => kind.as_str
  | ⟨.Custom _ c⟩ => c.description

/-- Model of `url::Url` restricted to the accessors the crate reads:
`scheme()`, `as_str()` and `path()`. -/
structure Url where
  scheme : String
  as_str : String
  path : String
deriving DecidableEq

/-- src/settings.rs `struct Settings`. -/
structure Settings where
  _url : Url
deriving DecidableEq

/-- src/settings.rs `Settings::new`, parametrised by the external
`Url::parse` function: a parse error is wrapped as
`Error::new(ErrorKind::Other, err.description())`. -/
def Settings.new (parse : String → Except Cause Url) (url : String) :
    Except Error Settings :=
  match parse url with
  | .error err => .error (Error.new .Other ⟨err.description⟩)
  | .ok u => .ok ⟨u⟩

/-- src/settings.rs `Settings::url`. -/
def Settings.url (s : Settings) : Url := s._url

/-- Modelled from the spec: `configuration.rs` (`DieselConfiguration`) is
declared in src/lib.rs but its source is not under src/.  Per the spec (§6)
the configuration collaborator exposes a key-value view; a value may or may
not be representable as a string (`as_str` in database.rs). -/
inductive ConfigValue
  | str (s : String)
  | nonString
deriving DecidableEq

/-- Modelled from the spec: `as_str` on a configuration value returns the
string when the value is representable as one. -/
def ConfigValue.as_str : ConfigValue → Option String
  | .str s => some s
  | .nonString => none

instance {ε α : Type} [DecidableEq ε] [DecidableEq α] :
    DecidableEq (Except ε α) := fun a b =>
  match a, b with
  | .error x, .error y => decidable_of_iff (x = y) (by simp)
  | .error _, .ok _ => isFalse (by simp)
  | .ok _, .error _ => isFalse (by simp)
  | .ok x, .ok y => decidable_of_iff (x = y) (by simp)

/-- Modelled from the spec: the configuration collaborator, restricted to
the one access the crate performs (`configuration.get("url")` in
database.rs, a fallible lookup returning an optional value). -/
structure Configuration where
  url_entry : Except Cause (Option ConfigValue)
deriving DecidableEq

/-- Diesel's `MysqlConnection`, opaque to the crate: a token value. -/
structure MysqlConnection where
  id : Nat
deriving DecidableEq

/-- Diesel's `PgConnection`, opaque to the crate: a token value. -/
structure PgConnection where
  id : Nat
deriving DecidableEq

/-- Diesel's `SqliteConnection`, opaque to the crate: a token value. -/
structure SqliteConnection where
  id : Nat
deriving DecidableEq

/-- Contents of the cell's `Box<dyn Any>`: the only values ever stored are
the three diesel connection types boxed by `Database::initialize`. -/
inductive Handle
  | mysql (c : MysqlConnection)
  | pg (c : PgConnection)
  | sqlite (c : SqliteConnection)
deriving DecidableEq

/-- The backend a stored handle belongs to. -/
inductive BackendTag
  | mysql
  | pg
  | sqlite
deriving DecidableEq

/-- Variant tag of a stored handle. -/
def Handle.tag : Handle → BackendTag
  | .mysql _ => .mysql
  | .pg _ => .pg
  | .sqlite _ => .sqlite

/-- `boxed_database.downcast_mut::<diesel::MysqlConnection>()` on the
stored `dyn Any` value. -/
def Handle.downcast_mysql : Handle → Option MysqlConnection
  | .mysql c => some c
  | _ => none

/-- `boxed_database.downcast_mut::<diesel::PgConnection>()`. -/
def Handle.downcast_pg : Handle → Option PgConnection
  | .pg c => some c
  | _ => none

/-- `boxed_database.downcast_mut::<diesel::SqliteConnection>()`. -/
def Handle.downcast_sqlite : Handle → Option SqliteConnection
  | .sqlite c => some c
  | _ => none

/-- src/connection.rs `struct Connection`: the cell, a
`Mutex<Option<Box<dyn Any>>>`.  `poisoned` models the mutex's poisoned
state (set only when a holder panics; nothing in the sequential model sets
it, but the branches reading it are embedded faithfully). -/
structure Connection where
  _connection : Option Handle
  poisoned : Bool
deriving DecidableEq

/-- src/connection.rs `Connection::new`. -/
def Connection.new (connection : Option Handle) : Connection :=
  ⟨connection, false⟩

/-- src/connection.rs `impl Default for Connection`: empty cell. -/
def Connection.default : Connection :=
  ⟨none, false⟩

/-- Description of a std `PoisonError` (the string `err.description()`
yields on a poisoned-lock error). -/
def poisonDescription : String := "poisoned lock: another task failed inside"

/-- src/connection.rs `Connection::initialized`: locks the cell (mapping a
poisoned lock to `Other` wrapping the poison error's description) and
reports whether a handle is present. -/
def Connection.initialized (c : Connection) : Except Error Bool :=
  if c.poisoned then
    .error (Error.new .Other ⟨poisonDescription⟩)
  else
    .ok c._connection.isSome

namespace locked_connection

/-- src/locked_connection.rs `enum Connection`: the short-lived tagged view
of the active backend connection (the `ManuallyDrop<Box<...>>` wrappers are
borrowed views of the stored connection values). -/
inductive Connection
  | Unknown
  | Mysql (c : MysqlConnection)
  | Pg (c : PgConnection)
  | Sqlite (c : SqliteConnection)
deriving DecidableEq

/-- src/locked_connection.rs `Connection::is_unknown`. -/
def Connection.is_unknown : Connection → Bool
  | .Unknown => true
  | _ => false

/-- src/locked_connection.rs `Connection::is_mysql`. -/
def Connection.is_mysql : Connection → Bool
  | .Mysql _ => true
  | _ => false

/-- src/locked_connection.rs `Connection::is_pg`. -/
def Connection.is_pg : Connection → Bool
  | .Pg _ => true
  | _ => false

/-- src/locked_connection.rs `Connection::is_sqlite`. -/
def Connection.is_sqlite : Connection → Bool
  | .Sqlite _ => true
  | _ => false

/-- src/locked_connection.rs `impl PartialEq for Connection`, transcribed
verbatim: a disjunction of the pairwise variant predicates. -/
def Connection.eq (a b : Connection) : Bool :=
  (a.is_unknown && b.is_unknown) ||
  (a.is_mysql && b.is_mysql) ||
  (a.is_pg && b.is_pg) ||
  (a.is_sqlite && b.is_sqlite)

/-- Variant identity of a locked-connection value (for stating what the
source's `PartialEq` computes). -/
inductive Variant
  | unknown
  | mysql
  | pg
  | sqlite
deriving DecidableEq

/-- The variant of a locked-connection value. -/
def Connection.variant : Connection → Variant
  | .Unknown => .unknown
  | .Mysql _ => .mysql
  | .Pg _ => .pg
  | .Sqlite _ => .sqlite

end locked_connection

/-- A Rust computation that either returns normally or panics
(`unwrap` on `Err`, `unimplemented!`, `unreachable!`). -/
inductive PanicOr (α : Type)
  | ok (a : α)
  | panicked (msg : String)
deriving DecidableEq

/-- src/database.rs `struct Database`: the shared optional configuration
behind an `RwLock` (whose poisoned state is `_configurationPoisoned`) and
the shared cell. -/
structure Database where
  _configuration : Option Configuration
  _configurationPoisoned : Bool
  _database : Connection
deriving DecidableEq

/-- src/database.rs `impl Default for Database`: empty cell, no
configuration. -/
def Database.default : Database :=
  ⟨none, false, Connection.default⟩

/-- src/database.rs `Database::has_configuration`: true when the read lock
succeeds and a configuration is present, false otherwise. -/
def Database.has_configuration (db : Database) : Bool :=
  if db._configurationPoisoned then false else db._configuration.isSome

/-- src/database.rs `Database::settings`: reads the configuration under
the read lock, extracts the `url` key, requires it to be a string, and
builds `Settings` from it. -/
def Database.settings (parse : String → Except Cause Url) (db : Database) :
    Except Error Settings :=
  if db._configurationPoisoned then
    .error (Error.new .Other ⟨poisonDescription⟩)
  else
    match db._configuration with
    | none => .error (Error.new .Other ⟨"no configuration available"⟩)
    | some configuration =>
      match configuration.url_entry with
      | .error err => .error (Error.new .Other ⟨err.description⟩)
      | .ok none =>
        .error (Error.new .MissingValue ⟨"no `url` value in configuration"⟩)
      | .ok (some url_value) =>
        match url_value.as_str with
        | none =>
          .error (Error.new .FormatError
            ⟨"invalid format for `url` in configuration."⟩)
        | some url => Settings.new parse url

/-- src/database.rs `Database::initialized`: delegates to the cell. -/
def Database.initialized (db : Database) : Except Error Bool :=
  db._database.initialized

/-- The external native `establish` calls, one per backend (diesel's
`Connection::establish`): synchronous, returning a live connection or an
establishment error. -/
structure Establishers where
  mysql : String → Except Cause MysqlConnection
  pg : String → Except Cause PgConnection
  sqlite : String → Except Cause SqliteConnection

/-- src/database.rs `Database::initialize`: resolves `Settings`, matches
the URL scheme, calls the native `establish` with `.unwrap()` (a failing
establishment PANICS), an unrecognized scheme yields `None`; then locks the
cell (a poisoned lock fails with `Other`) and unconditionally overwrites
the slot with the computed option. -/
def Database.initialize (est : Establishers)
    (parse : String → Except Cause Url) (db : Database) :
    PanicOr (Except Error Unit × Database) :=
  match Database.settings parse db with
  | .error e => .ok (.error e, db)
  | .ok settings =>
    let scheme := settings._url.scheme
    let attempt : PanicOr (Option Handle) :=
      if scheme = "mysql" then
        match est.mysql settings._url.as_str with
        | .ok mysql => .ok (some (.mysql mysql))
        | .error err =>
          .panicked ("called `Result::unwrap()` on an `Err` value: "
            ++ err.description)
      else if scheme = "postgres" ∨ scheme = "postgresql" then
        match est.pg settings._url.as_str with
        | .ok postgresql => .ok (some (.pg postgresql))
        | .error err =>
          .panicked ("called `Result::unwrap()` on an `Err` value: "
            ++ err.description)
      else if scheme = "sqlite" then
        match est.sqlite settings._url.path with
        | .ok sqlite => .ok (some (.sqlite sqlite))
        | .error err =>
          .panicked ("called `Result::unwrap()` on an `Err` value: "
            ++ err.description)
      else
        .ok none
    match attempt with
    | .panicked m => .panicked m
    | .ok database =>
      if db._database.poisoned then
        .ok (.error (Error.new .Other ⟨"failed to update database connection"⟩),
          db)
      else
        .ok (.ok (),
          { db with _database := { db._database with _connection := database } })

/-- src/database.rs `Database::lock`: resolves `Settings`, locks the cell
(`Other` "database got poisoned" when poisoned), fails with `Other`
"database is not ready" when the slot is empty, otherwise downcasts the
stored handle per the scheme recorded in `Settings` (`Other` "failed to
downcast database" on mismatch); an unrecognized scheme with a present
handle hits `unimplemented!` and PANICS. -/
def Database.lock (parse : String → Except Cause Url) (db : Database) :
    PanicOr (Except Error locked_connection.Connection) :=
  match Database.settings parse db with
  | .error e => .ok (.error e)
  | .ok settings =>
    if db._database.poisoned then
      .ok (.error (Error.new .Other ⟨"database got poisoned"⟩))
    else
      match db._database._connection with
      | none => .ok (.error (Error.new .Other ⟨"database is not ready"⟩))
      | some boxed_database =>
        let scheme := settings._url.scheme
        if scheme = "mysql" then
          match boxed_database.downcast_mysql with
          | none =>
            .ok (.error (Error.new .Other ⟨"failed to downcast database"⟩))
          | some c => .ok (.ok (locked_connection.Connection.Mysql c))
        else if scheme = "postgres" ∨ scheme = "postgresql" then
          match boxed_database.downcast_pg with
          | none =>
            .ok (.error (Error.new .Other ⟨"failed to downcast database"⟩))
          | some c => .ok (.ok (locked_connection.Connection.Pg c))
        else if scheme = "sqlite" then
          match boxed_database.downcast_sqlite with
          | none =>
            .ok (.error (Error.new .Other ⟨"failed to downcast database"⟩))
          | some c => .ok (.ok (locked_connection.Connection.Sqlite c))
        else
          .panicked "not implemented"

/-- src/database.rs `Database::interact`, closure-error mapping:
`.map_err(|err| Error::new(ErrorKind::Other, err.description()))`. -/
def wrapClosureResult {α : Type} : Except Cause α → Except Error α
  | .error err => .error (Error.new .Other ⟨err.description⟩)
  | .ok v => .ok v

/-- src/database.rs `Database::interact`: calls `lock`; replaces ANY lock
error with `Other` "database got poisoned" (never attempting
establishment); dispatches on the locked-connection variant (the `Unknown`
arm hits `unimplemented!`), and wraps the chosen closure's error.  The
returned state records that the cell is not written by `interact`. -/
def Database.interact {α : Type} (parse : String → Except Cause Url)
    (db : Database)
    (mysql_f : MysqlConnection → Except Cause α)
    (pg_f : PgConnection → Except Cause α)
    (sqlite_f : SqliteConnection → Except Cause α) :
    PanicOr (Except Error α × Database) :=
  match Database.lock parse db with
  | .panicked m => .panicked m
  | .ok (.error _err) =>
    .ok (.error (Error.new .Other ⟨"database got poisoned"⟩), db)
  | .ok (.ok conn) =>
    match conn with
    | .Unknown => .panicked "not implemented"
    | .Mysql c => .ok (wrapClosureResult (mysql_f c), db)
    | .Pg c => .ok (wrapClosureResult (pg_f c), db)
    | .Sqlite c => .ok (wrapClosureResult (sqlite_f c), db)

/-- Outcome of `request.guard::<Configuration>()` in `on_request`. -/
inductive GuardOutcome
  | success (configuration : Configuration)
  | forward
  | failure
deriving DecidableEq

/-- src/database.rs `Database::on_request` (the lifecycle hook): when not
yet initialized, obtains the configuration from the request guard if
absent (`Forward` hits `unreachable!`; `Failure` returns early without
establishing), stores it under the write lock when the lock is healthy,
then calls `initialize`, discarding its result. -/
def Database.on_request (est : Establishers)
    (parse : String → Except Cause Url) (guard : GuardOutcome)
    (db : Database) : PanicOr Database :=
  if (match Database.initialized db with | .ok b => b | .error _ => false) then
    .ok db
  else
    let step : PanicOr (Option Database) :=
      if Database.has_configuration db then .ok (some db)
      else
        match guard with
        | .success configuration =>
          .ok (some (if db._configurationPoisoned then db
            else { db with _configuration := some configuration }))
        | .forward => .panicked "internal error: entered unreachable code"
        | .failure => .ok none
    match step with
    | .panicked m => .panicked m
    | .ok none => .ok db
    | .ok (some db1) =>
      match Database.initialize est parse db1 with
      | .panicked m => .panicked m
      | .ok (_r, db2) => .ok db2

/-- The locked-connection view `Database::lock` builds for a stored handle
whose type agrees with the scheme. -/
def Handle.toLocked : Handle → locked_connection.Connection
  | .mysql c => .Mysql c
  | .pg c => .Pg c
  | .sqlite c => .Sqlite c

/-- Application of the one closure matching the stored handle's backend to
the stored connection (the outcome of `interact`'s dispatch step). -/
def Handle.dispatch {α : Type} (hdl : Handle)
    (mysql_f : MysqlConnection → Except Cause α)
    (pg_f : PgConnection → Except Cause α)
    (sqlite_f : SqliteConnection → Except Cause α) : Except Cause α :=
  match hdl with
  | .mysql c => mysql_f c
  | .pg c => pg_f c
  | .sqlite c => sqlite_f c

/-- Whether a URL scheme selects the given backend, per the scheme matches
in src/database.rs. -/
def schemeMatches (scheme : String) : BackendTag → Bool
  | .mysql => scheme = "mysql"
  | .pg => scheme = "postgres" ∨ scheme = "postgresql"
  | .sqlite => scheme = "sqlite"

/-- Runs `interact` `n` times with instrumented closures that report which
closure was invoked, threading the returned state, and collects the
reports; stops on a panic or an error. -/
def interactTrace (parse : String → Except Cause Url) (db : Database) :
    Nat → List BackendTag
  | 0 => []
  | n + 1 =>
    match Database.interact parse db
      (fun _ => .ok BackendTag.mysql)
      (fun _ => .ok BackendTag.pg)
      (fun _ => .ok BackendTag.sqlite) with
    | .ok (.ok t, db1) => t :: interactTrace parse db1 n
    | _ => []

/-- A concrete stand-in for `Url::parse`, mapping a handful of fixed raw
strings to their parsed forms and everything else to a parse error. -/
def demoParse : String → Except Cause Url := fun raw =>
  if raw = "mysql://db" then .ok ⟨"mysql", "mysql://db", "/"⟩
  else if raw = "postgres://db" then .ok ⟨"postgres", "postgres://db", "/"⟩
  else if raw = "sqlite:///tmp/db.sq3" then
    .ok ⟨"sqlite", "sqlite:///tmp/db.sq3", "/tmp/db.sq3"⟩
  else if raw = "gopher://db" then .ok ⟨"gopher", "gopher://db", "/"⟩
  else .error ⟨"relative URL without a base"⟩

/-- A configuration whose `url` key is the mysql URL. -/
def mysqlConfiguration : Configuration := ⟨.ok (some (.str "mysql://db"))⟩

/-- A configuration whose `url` key has an unrecognized scheme. -/
def gopherConfiguration : Configuration := ⟨.ok (some (.str "gopher://db"))⟩

/-- Configured (mysql scheme), cell empty, nothing poisoned. -/
def dbEmptyMysql : Database := ⟨some mysqlConfiguration, false, ⟨none, false⟩⟩

/-- Configured with an unrecognized scheme while the cell still holds a
previously established mysql handle. -/
def dbGopherWithHandle : Database :=
  ⟨some gopherConfiguration, false, ⟨some (.mysql ⟨7⟩), false⟩⟩

/-- The state `dbGopherWithHandle` is left in after `initialize` ran under
the unrecognized scheme: the slot was overwritten with `None`. -/
def dbGopherCleared : Database := ⟨some gopherConfiguration, false, ⟨none, false⟩⟩

/-- Configured (mysql scheme) with a matching established handle. -/
def dbMysqlWithHandle : Database :=
  ⟨some mysqlConfiguration, false, ⟨some (.mysql ⟨7⟩), false⟩⟩

/-- A configuration whose `url` key is the postgres URL. -/
def pgConfiguration : Configuration := ⟨.ok (some (.str "postgres://db"))⟩

/-- A configuration whose `url` key is the sqlite URL. -/
def sqliteConfiguration : Configuration :=
  ⟨.ok (some (.str "sqlite:///tmp/db.sq3"))⟩

/-- Configured (postgres scheme), cell empty, nothing poisoned. -/
def dbEmptyPg : Database := ⟨some pgConfiguration, false, ⟨none, false⟩⟩

/-- Configured (sqlite scheme), cell empty, nothing poisoned. -/
def dbEmptySqlite : Database := ⟨some sqliteConfiguration, false, ⟨none, false⟩⟩

/-- Establishers that always succeed. -/
def okEst : Establishers :=
  ⟨fun _ => .ok ⟨1⟩, fun _ => .ok ⟨2⟩, fun _ => .ok ⟨3⟩⟩

/-- Establishers whose mysql establishment fails. -/
def failingMysqlEst : Establishers :=
  ⟨fun _ => .error ⟨"connection refused"⟩, fun _ => .ok ⟨2⟩, fun _ => .ok ⟨3⟩⟩

/-- Claim C7: constructing an `Error` from a kind alone round-trips
`kind()`, and its description is the fixed static per-kind string
(`MissingValue` → "missing_value", `FormatError` → "format_error",
`UnimplementedFormat` → "unimplemented_format", `Other` → "other"); when a
nested cause is present the description is the cause's description. -/
theorem c7_kind_roundtrip_description_table :
    (∀ k : ErrorKind, (Error.fromKind k).kind = k) ∧
    (∀ k : ErrorKind, (Error.fromKind k).description = k.as_str) ∧
    (Error.fromKind .MissingValue).description = "missing_value" ∧
    (Error.fromKind .FormatError).description = "format_error" ∧
    (Error.fromKind .UnimplementedFormat).description = "unimplemented_format" ∧
    (Error.fromKind .Other).description = "other" ∧
    (∀ (k : ErrorKind) (c : Cause), (Error.new k c).description = c.description) :=
  ⟨fun _ => rfl, fun _ => rfl, rfl, rfl, rfl, rfl, fun _ _ => rfl⟩

/-- Claim C8: equality of two locked-connection (Backend Handle) values
holds exactly when the two have the same variant tag, independent of the
wrapped connection values, and this equality is reflexive and symmetric. -/
theorem c8_eq_is_variant_identity :
    (∀ a b : locked_connection.Connection,
      locked_connection.Connection.eq a b = true ↔ a.variant = b.variant) ∧
    (∀ a : locked_connection.Connection,
      locked_connection.Connection.eq a a = true) ∧
    (∀ a b : locked_connection.Connection,
      locked_connection.Connection.eq a b = locked_connection.Connection.eq b a) := by
  refine ⟨fun a b => ?_, fun a => ?_, fun a b => ?_⟩
  · cases a <;> cases b <;>
      simp [locked_connection.Connection.eq, locked_connection.Connection.is_unknown,
        locked_connection.Connection.is_mysql, locked_connection.Connection.is_pg,
        locked_connection.Connection.is_sqlite, locked_connection.Connection.variant]
  · cases a <;> rfl
  · cases a <;> cases b <;> rfl

/-- Claim C10: `get_ref`, `get_mut` and `into_inner` expose the nested
cause exactly when the `Error` was built via `Error::new`, and return
`none` exactly when it was built from an `ErrorKind` alone; `kind()`
returns the construction kind in both representations. -/
theorem c10_inner_accessors :
    (∀ (k : ErrorKind) (c : Cause),
      Error.get_ref (Error.new k c) = some c ∧
      Error.get_mut (Error.new k c) = some c ∧
      Error.into_inner (Error.new k c) = some c ∧
      (Error.new k c).kind = k) ∧
    (∀ k : ErrorKind,
      Error.get_ref (Error.fromKind k) = none ∧
      Error.get_mut (Error.fromKind k) = none ∧
      Error.into_inner (Error.fromKind k) = none ∧
      (Error.fromKind k).kind = k) ∧
    (∀ e : Error, (Error.get_ref e).isSome ↔ ∃ k c, e = Error.new k c) := by
  refine ⟨fun k c => ⟨rfl, rfl, rfl, rfl⟩, fun k => ⟨rfl, rfl, rfl, rfl⟩,
    fun e => ?_⟩
  obtain ⟨r⟩ := e
  cases r with
  | Simple k => simp [Error.get_ref, Error.new]
  | Custom k c =>
    simp only [Error.get_ref, Option.isSome_some, true_iff]
    exact ⟨k, c, rfl⟩

/-- Claim C9: a string the URL parser rejects makes `Settings::new` fail
with kind `Other` wrapping the parse error's description, and a string it
accepts makes `Settings::new` succeed with `url()` returning the parsed
URL (and, being a pure function, no other side effect). -/
theorem c9_settings_new_parse (parse : String → Except Cause Url)
    (raw : String) :
    (∀ e : Cause, parse raw = .error e →
      Settings.new parse raw = .error (Error.new .Other ⟨e.description⟩) ∧
      (Error.new .Other ⟨e.description⟩).kind = .Other ∧
      (Error.new .Other ⟨e.description⟩).description = e.description) ∧
    (∀ u : Url, parse raw = .ok u →
      Settings.new parse raw = .ok ⟨u⟩ ∧ Settings.url ⟨u⟩ = u) := by
  constructor
  · intro e he
    exact ⟨by simp [Settings.new, he], rfl, rfl⟩
  · intro u hu
    exact ⟨by simp [Settings.new, hu], rfl⟩

/-- Witness for C9 at concrete inputs: a rejected raw string and an
accepted one. -/
theorem c9_settings_new_parse_witness :
    Settings.new demoParse "nonsense"
      = .error (Error.new .Other ⟨"relative URL without a base"⟩) ∧
    Settings.new demoParse "mysql://db" = .ok ⟨⟨"mysql", "mysql://db", "/"⟩⟩ :=
  ⟨((c9_settings_new_parse demoParse "nonsense").1
      ⟨"relative URL without a base"⟩ (by decide)).1,
   ((c9_settings_new_parse demoParse "mysql://db").2
      ⟨"mysql", "mysql://db", "/"⟩ (by decide)).1⟩



theorem lock_established (parse : String → Except Cause Url) (db : Database)
    (s : Settings) (hdl : Handle)
    (hs : Database.settings parse db = .ok s)
    (hp : db._database.poisoned = false)
    (hslot : db._database._connection = some hdl)
    (hmatch : schemeMatches s._url.scheme hdl.tag = true) :
    Database.lock parse db = .ok (.ok hdl.toLocked) := by
  cases hdl with
  | mysql c =>
    have hscheme : s._url.scheme = "mysql" := by
      simpa [schemeMatches, Handle.tag] using hmatch
    simp [Database.lock, hs, hp, hslot, hscheme, Handle.downcast_mysql,
      Handle.toLocked]
  | pg c =>
    have hscheme : s._url.scheme = "postgres" ∨ s._url.scheme = "postgresql" := by
      simpa [schemeMatches, Handle.tag] using hmatch
    rcases hscheme with h | h <;>
      simp [Database.lock, hs, hp, hslot, h, Handle.downcast_pg, Handle.toLocked]
  | sqlite c =>
    have hscheme : s._url.scheme = "sqlite" := by
      simpa [schemeMatches, Handle.tag] using hmatch
    simp [Database.lock, hs, hp, hslot, hscheme, Handle.downcast_sqlite,
      Handle.toLocked]

theorem interact_established (parse : String → Except Cause Url)
    (db : Database) (s : Settings) (hdl : Handle)
    (hs : Database.settings parse db = .ok s)
    (hp : db._database.poisoned = false)
    (hslot : db._database._connection = some hdl)
    (hmatch : schemeMatches s._url.scheme hdl.tag = true)
    {α : Type} (mysql_f : MysqlConnection → Except Cause α)
    (pg_f : PgConnection → Except Cause α)
    (sqlite_f : SqliteConnection → Except Cause α) :
    Database.interact parse db mysql_f pg_f sqlite_f =
      .ok (wrapClosureResult (hdl.dispatch mysql_f pg_f sqlite_f), db) := by
  have hl := lock_established parse db s hdl hs hp hslot hmatch
  cases hdl <;>
    simp [Database.interact, hl, Handle.toLocked, Handle.dispatch]

theorem interactTrace_established (parse : String → Except Cause Url)
    (db : Database) (s : Settings) (hdl : Handle)
    (hs : Database.settings parse db = .ok s)
    (hp : db._database.poisoned = false)
    (hslot : db._database._connection = some hdl)
    (hmatch : schemeMatches s._url.scheme hdl.tag = true) :
    ∀ n : Nat, interactTrace parse db n = List.replicate n hdl.tag := by
  intro n
  induction n with
  | zero => rfl
  | succ n ih =>
    have hstep := interact_established parse db s hdl hs hp hslot hmatch
      (fun _ => .ok BackendTag.mysql) (fun _ => .ok BackendTag.pg)
      (fun _ => .ok BackendTag.sqlite)
    cases hdl <;>
      simp [interactTrace, hstep, Handle.dispatch, wrapClosureResult,
        Handle.tag, List.replicate, ih] at *

/-- Claim C4: with the cell holding an established handle whose backend
matches the Settings scheme, `interact` applies exactly the matching
closure to the stored connection (the result is the wrap of that closure's
output), the result does not depend on the other two closures, and over
`n` instrumented calls the matching closure runs exactly `n` times. -/
theorem c4_dispatch_exactly_matching (parse : String → Except Cause Url)
    (db : Database) (s : Settings) (hdl : Handle)
    (hs : Database.settings parse db = .ok s)
    (hp : db._database.poisoned = false)
    (hslot : db._database._connection = some hdl)
    (hmatch : schemeMatches s._url.scheme hdl.tag = true) :
    (∀ {α : Type} (mysql_f : MysqlConnection → Except Cause α)
        (pg_f : PgConnection → Except Cause α)
        (sqlite_f : SqliteConnection → Except Cause α),
      Database.interact parse db mysql_f pg_f sqlite_f =
        .ok (wrapClosureResult (hdl.dispatch mysql_f pg_f sqlite_f), db)) ∧
    (∀ {α : Type} (f₁ g₁ : MysqlConnection → Except Cause α)
        (f₂ g₂ : PgConnection → Except Cause α)
        (f₃ g₃ : SqliteConnection → Except Cause α),
      hdl.dispatch f₁ f₂ f₃ = hdl.dispatch g₁ g₂ g₃ →
      Database.interact parse db f₁ f₂ f₃ =
        Database.interact parse db g₁ g₂ g₃) ∧
    (∀ n : Nat, interactTrace parse db n = List.replicate n hdl.tag) := by
  refine ⟨fun f₁ f₂ f₃ => interact_established parse db s hdl hs hp hslot hmatch f₁ f₂ f₃,
    fun f₁ g₁ f₂ g₂ f₃ g₃ hagree => ?_,
    interactTrace_established parse db s hdl hs hp hslot hmatch⟩
  rw [interact_established parse db s hdl hs hp hslot hmatch f₁ f₂ f₃,
    interact_established parse db s hdl hs hp hslot hmatch g₁ g₂ g₃, hagree]

/-- Witness for C4 at a concrete established mysql state: the mysql
closure's answer comes back, and three instrumented calls invoke the mysql
closure three times. -/
theorem c4_dispatch_exactly_matching_witness :
    Database.interact demoParse dbMysqlWithHandle
      (fun c => .ok c.id) (fun _ => .ok 0) (fun _ => .ok 0)
      = .ok (.ok 7, dbMysqlWithHandle) ∧
    interactTrace demoParse dbMysqlWithHandle 3
      = [BackendTag.mysql, BackendTag.mysql, BackendTag.mysql] := by
  have h := c4_dispatch_exactly_matching demoParse dbMysqlWithHandle
    ⟨⟨"mysql", "mysql://db", "/"⟩⟩ (.mysql ⟨7⟩)
    (by decide) (by decide) (by decide) (by decide)
  exact ⟨(h.1 (fun c => .ok c.id) (fun _ => .ok 0) (fun _ => .ok 0)).trans (by rfl),
    (h.2.2 3).trans (by rfl)⟩

/-- Claim C6: when the dispatched closure returns a backend-native error,
`interact` returns the unified error type wrapping it with kind `Other`
(one of the unified kinds), preserving the native error's description, and
never the native error raw; the `From<diesel::result::Error>` conversion
likewise wraps with kind `Diesel` preserving the description. -/
theorem c6_closure_error_wrapped (parse : String → Except Cause Url)
    (db : Database) (s : Settings) (hdl : Handle)
    (hs : Database.settings parse db = .ok s)
    (hp : db._database.poisoned = false)
    (hslot : db._database._connection = some hdl)
    (hmatch : schemeMatches s._url.scheme hdl.tag = true)
    {α : Type} (mysql_f : MysqlConnection → Except Cause α)
    (pg_f : PgConnection → Except Cause α)
    (sqlite_f : SqliteConnection → Except Cause α)
    (e : Cause) (herr : hdl.dispatch mysql_f pg_f sqlite_f = .error e) :
    Database.interact parse db mysql_f pg_f sqlite_f =
      .ok (.error (Error.new .Other ⟨e.description⟩), db) ∧
    (Error.new .Other ⟨e.description⟩).kind = .Other ∧
    (Error.new .Other ⟨e.description⟩).description = e.description ∧
    (∀ d : Cause, (Error.fromDiesel d).kind = .Diesel ∧
      (Error.fromDiesel d).description = d.description) := by
  refine ⟨?_, rfl, rfl, fun d => ⟨rfl, rfl⟩⟩
  rw [interact_established parse db s hdl hs hp hslot hmatch mysql_f pg_f
    sqlite_f, herr]
  rfl

/-- Witness for C6: a failing mysql closure against the established mysql
state comes back as `Other` with the native description preserved. -/
theorem c6_closure_error_wrapped_witness :
    Database.interact demoParse dbMysqlWithHandle
      (fun _ => (.error ⟨"native failure"⟩ : Except Cause Nat))
      (fun _ => .ok 0) (fun _ => .ok 0)
      = .ok (.error (Error.new .Other ⟨"native failure"⟩), dbMysqlWithHandle) :=
  (c6_closure_error_wrapped demoParse dbMysqlWithHandle
    ⟨⟨"mysql", "mysql://db", "/"⟩⟩ (.mysql ⟨7⟩)
    (by decide) (by decide) (by decide) (by decide)
    (fun _ => (.error ⟨"native failure"⟩ : Except Cause Nat))
    (fun _ => .ok 0) (fun _ => .ok 0) ⟨"native failure"⟩ rfl).1

/-- Counterexample to C1 as stated: with Settings present (mysql scheme),
the slot empty and nothing poisoned, `interact` fails with description
"database got poisoned" — not "database is not ready" — and the returned
state still has an empty slot: no establishment was attempted. -/
theorem c1_counterexample :
    Database.interact demoParse dbEmptyMysql
      (fun _ => (.ok 0 : Except Cause Nat)) (fun _ => .ok 0) (fun _ => .ok 0)
      = .ok (.error (Error.new .Other ⟨"database got poisoned"⟩), dbEmptyMysql) ∧
    (Error.new .Other ⟨"database got poisoned"⟩).description
      ≠ "database is not ready" ∧
    dbEmptyMysql._database._connection = none := by
  refine ⟨by decide, by decide, rfl⟩

/-- Claim C1 as amended: `interact` never attempts establishment.  When
Settings are present, the cell is unpoisoned and the slot is empty, the
internal lock step fails with `Other` "database is not ready", and
`interact` discards that error, failing with `Other` "database got
poisoned" while leaving the state (slot still empty) unchanged. -/
theorem c1_amended_interact_no_establishment
    (parse : String → Except Cause Url) (db : Database) (s : Settings)
    (hs : Database.settings parse db = .ok s)
    (hp : db._database.poisoned = false)
    (hslot : db._database._connection = none)
    {α : Type} (mysql_f : MysqlConnection → Except Cause α)
    (pg_f : PgConnection → Except Cause α)
    (sqlite_f : SqliteConnection → Except Cause α) :
    Database.lock parse db =
      .ok (.error (Error.new .Other ⟨"database is not ready"⟩)) ∧
    Database.interact parse db mysql_f pg_f sqlite_f =
      .ok (.error (Error.new .Other ⟨"database got poisoned"⟩), db) := by
  have hl : Database.lock parse db =
      .ok (.error (Error.new .Other ⟨"database is not ready"⟩)) := by
    simp [Database.lock, hs, hp, hslot]
  exact ⟨hl, by simp [Database.interact, hl]⟩

/-- Witness for the amended C1 at the concrete empty mysql-configured
state. -/
theorem c1_amended_interact_no_establishment_witness :
    Database.interact demoParse dbEmptyMysql
      (fun _ => (.ok 0 : Except Cause Nat)) (fun _ => .ok 0) (fun _ => .ok 0)
      = .ok (.error (Error.new .Other ⟨"database got poisoned"⟩), dbEmptyMysql) :=
  (c1_amended_interact_no_establishment demoParse dbEmptyMysql
    ⟨⟨"mysql", "mysql://db", "/"⟩⟩ (by decide) (by decide) (by decide)
    (fun _ => (.ok 0 : Except Cause Nat)) (fun _ => .ok 0) (fun _ => .ok 0)).2

theorem interact_preserves_state (parse : String → Except Cause Url)
    (db : Database) {α : Type} (mysql_f : MysqlConnection → Except Cause α)
    (pg_f : PgConnection → Except Cause α)
    (sqlite_f : SqliteConnection → Except Cause α)
    (r : Except Error α) (db' : Database)
    (hint : Database.interact parse db mysql_f pg_f sqlite_f = .ok (r, db')) :
    db' = db := by
  unfold Database.interact at hint
  cases hl : Database.lock parse db with
  | panicked m => rw [hl] at hint; simp at hint
  | ok res =>
    rw [hl] at hint
    cases res with
    | error e => simp at hint; exact hint.2.symm
    | ok conn =>
      cases conn with
      | Unknown => simp at hint
      | Mysql c => simp at hint; exact hint.2.symm
      | Pg c => simp at hint; exact hint.2.symm
      | Sqlite c => simp at hint; exact hint.2.symm

/-- Counterexample to C2 as stated: under a configuration whose URL scheme
is "gopher" (no known backend) and with a previously established handle in
the cell, the establishment step returns `Ok(())` — not an error of kind
`Other` — and overwrites the slot with `None`, clearing the previously
present handle. -/
theorem c2_counterexample :
    dbGopherWithHandle._database._connection = some (.mysql ⟨7⟩) ∧
    Database.initialize okEst demoParse dbGopherWithHandle
      = .ok (.ok (), dbGopherCleared) ∧
    dbGopherCleared._database._connection = none := by
  refine ⟨rfl, by decide, rfl⟩

/-- Claim C2 as amended: when the Settings' URL scheme matches no known
backend and the cell is unpoisoned, the establishment step succeeds with
`Ok(())` while unconditionally storing `None` in the slot — leaving the
handle absent and clearing even a previously present one — without
poisoning the cell (the poisoned flag is untouched); afterwards
`initialized()` reports false, and since no failure is cached in the
state, a subsequent establishment call under the same state re-runs the
full establishment logic. -/
theorem c2_amended_unknown_scheme_establishment (est : Establishers)
    (parse : String → Except Cause Url) (db : Database) (s : Settings)
    (hs : Database.settings parse db = .ok s)
    (h1 : s._url.scheme ≠ "mysql") (h2 : s._url.scheme ≠ "postgres")
    (h3 : s._url.scheme ≠ "postgresql") (h4 : s._url.scheme ≠ "sqlite")
    (hp : db._database.poisoned = false) :
    Database.initialize est parse db =
      .ok (.ok (),
        { db with _database := { db._database with _connection := none } }) ∧
    ({ db with _database := { db._database with _connection := none } }
      : Database)._database.poisoned = db._database.poisoned ∧
    Database.initialized
      { db with _database := { db._database with _connection := none } }
      = .ok false := by
  refine ⟨?_, rfl, ?_⟩
  · simp [ Database.initialize, hs, h1, h2, h3, h4, hp]
  · simp [Database.initialized, Connection.initialized, hp]

/-- Witness for the amended C2 at the concrete gopher-configured state. -/
theorem c2_amended_unknown_scheme_establishment_witness :
    Database.initialize okEst demoParse dbGopherWithHandle
      = .ok (.ok (), dbGopherCleared) ∧
    Database.initialized dbGopherCleared = .ok false := by
  have h := c2_amended_unknown_scheme_establishment okEst demoParse
    dbGopherWithHandle ⟨⟨"gopher", "gopher://db", "/"⟩⟩
    (by decide) (by decide) (by decide) (by decide) (by decide) (by decide)
  exact ⟨h.1.trans (by rfl), h.2.2.trans (by rfl)⟩

/-- Counterexample to C5 as stated: `initialized()` can transition back
from true to false on the same Facade: with a handle present and an
unrecognized scheme configured, the establishment step removes the
handle. -/
theorem c5_counterexample :
    Database.initialized dbGopherWithHandle = .ok true ∧
    Database.initialize okEst demoParse dbGopherWithHandle
      = .ok (.ok (), dbGopherCleared) ∧
    Database.initialized dbGopherCleared = .ok false := by
  refine ⟨by decide, by decide, by decide⟩

/-- Claim C5 as amended: on an unpoisoned cell `initialized()` reports
exactly whether a handle is present (false before the first successful
establishment, true after); `interact` never writes the slot; a
successful establishment under a recognized scheme stores the handle
(making `initialized()` true); but the establishment step writes the slot
unconditionally, so establishment under an unrecognized scheme removes a
present handle and `initialized()` can return false again. -/
theorem c5_amended_initialized_tracks_slot :
    (∀ db : Database, db._database.poisoned = false →
      Database.initialized db = .ok db._database._connection.isSome) ∧
    (∀ (parse : String → Except Cause Url) (db : Database) {α : Type}
        (mysql_f : MysqlConnection → Except Cause α)
        (pg_f : PgConnection → Except Cause α)
        (sqlite_f : SqliteConnection → Except Cause α)
        (r : Except Error α) (db' : Database),
      Database.interact parse db mysql_f pg_f sqlite_f = .ok (r, db') →
      db' = db) ∧
    (∀ (est : Establishers) (parse : String → Except Cause Url)
        (db : Database) (s : Settings) (hdl : Handle),
      Database.settings parse db = .ok s →
      schemeMatches s._url.scheme hdl.tag = true →
      (match hdl with
       | .mysql c => est.mysql s._url.as_str = .ok c
       | .pg c => est.pg s._url.as_str = .ok c
       | .sqlite c => est.sqlite s._url.path = .ok c) →
      db._database.poisoned = false →
      Database.initialize est parse db =
        .ok (.ok (), { db with
          _database := { db._database with _connection := some hdl } }) ∧
      Database.initialized { db with
          _database := { db._database with _connection := some hdl } }
        = .ok true) := by
  refine ⟨fun db hp => ?_,
    fun parse db α f g h r db' hint =>
      interact_preserves_state parse db f g h r db' hint,
    fun est parse db s hdl hs hmatch hest hp => ⟨?_, ?_⟩⟩
  · simp [Database.initialized, Connection.initialized, hp]
  · cases hdl with
    | mysql c =>
      have hscheme : s._url.scheme = "mysql" := by
        simpa [schemeMatches, Handle.tag] using hmatch
      have hest' : est.mysql s._url.as_str = .ok c := hest
      simp [ Database.initialize, hs, hscheme, hest', hp]
    | pg c =>
      have hscheme : s._url.scheme = "postgres" ∨ s._url.scheme = "postgresql" := by
        simpa [schemeMatches, Handle.tag] using hmatch
      have hest' : est.pg s._url.as_str = .ok c := hest
      rcases hscheme with h | h <;>
        simp [ Database.initialize, hs, h, hest', hp]
    | sqlite c =>
      have hscheme : s._url.scheme = "sqlite" := by
        simpa [schemeMatches, Handle.tag] using hmatch
      have hest' : est.sqlite s._url.path = .ok c := hest
      simp [ Database.initialize, hs, hscheme, hest', hp]
  · simp [Database.initialized, Connection.initialized, hp]

/-- Witness for the amended C5, covering all three recognized backends:
on the empty mysql-configured state `initialized()` is false, a
successful establishment stores the handle and `initialized()` is true
afterwards; likewise a postgres-scheme and a sqlite-scheme establishment
store their handles. -/
theorem c5_amended_initialized_tracks_slot_witness :
    Database.initialized dbEmptyMysql = .ok false ∧
    Database.initialize okEst demoParse dbEmptyMysql
      = .ok (.ok (), ⟨some mysqlConfiguration, false, ⟨some (.mysql ⟨1⟩), false⟩⟩) ∧
    Database.initialized
      (⟨some mysqlConfiguration, false, ⟨some (.mysql ⟨1⟩), false⟩⟩ : Database)
      = .ok true ∧
    Database.initialize okEst demoParse dbEmptyPg
      = .ok (.ok (), ⟨some pgConfiguration, false, ⟨some (.pg ⟨2⟩), false⟩⟩) ∧
    Database.initialize okEst demoParse dbEmptySqlite
      = .ok (.ok (),
          ⟨some sqliteConfiguration, false, ⟨some (.sqlite ⟨3⟩), false⟩⟩) := by
  refine ⟨(c5_amended_initialized_tracks_slot.1 dbEmptyMysql rfl).trans (by rfl),
    ?_, ?_, ?_, ?_⟩
  · have h := (c5_amended_initialized_tracks_slot.2.2 okEst demoParse
      dbEmptyMysql ⟨⟨"mysql", "mysql://db", "/"⟩⟩ (.mysql ⟨1⟩)
      (by decide) (by decide) rfl (by decide)).1
    exact h.trans (by rfl)
  · have h := (c5_amended_initialized_tracks_slot.2.2 okEst demoParse
      dbEmptyMysql ⟨⟨"mysql", "mysql://db", "/"⟩⟩ (.mysql ⟨1⟩)
      (by decide) (by decide) rfl (by decide)).2
    exact h.trans (by rfl)
  · have h := (c5_amended_initialized_tracks_slot.2.2 okEst demoParse
      dbEmptyPg ⟨⟨"postgres", "postgres://db", "/"⟩⟩ (.pg ⟨2⟩)
      (by decide) (by decide) rfl (by decide)).1
    exact h.trans (by rfl)
  · have h := (c5_amended_initialized_tracks_slot.2.2 okEst demoParse
      dbEmptySqlite ⟨⟨"sqlite", "sqlite:///tmp/db.sq3", "/tmp/db.sq3"⟩⟩
      (.sqlite ⟨3⟩) (by decide) (by decide) rfl (by decide)).1
    exact h.trans (by rfl)

theorem initialize_panic_iff (est : Establishers)
    (parse : String → Except Cause Url) (db : Database) :
    (∃ m, Database.initialize est parse db = .panicked m) ↔
    (∃ s, Database.settings parse db = .ok s ∧
      ((s._url.scheme = "mysql" ∧ ∃ e, est.mysql s._url.as_str = .error e) ∨
       ((s._url.scheme = "postgres" ∨ s._url.scheme = "postgresql") ∧
         ∃ e, est.pg s._url.as_str = .error e) ∨
       (s._url.scheme = "sqlite" ∧ ∃ e, est.sqlite s._url.path = .error e))) := by
  cases hset : Database.settings parse db with
  | error e => simp [ Database.initialize, hset]
  | ok s =>
    by_cases h1 : s._url.scheme = "mysql"
    · cases hest : est.mysql s._url.as_str with
      | ok c =>
        cases hp : db._database.poisoned <;>
          simp [ Database.initialize, hset, h1, hest, hp]
      | error e =>
        simp [ Database.initialize, hset, h1, hest]
    · by_cases h2 : s._url.scheme = "postgres" ∨ s._url.scheme = "postgresql"
      · cases hest : est.pg s._url.as_str with
        | ok c =>
          rcases h2 with h | h <;>
            cases hp : db._database.poisoned <;>
              simp [ Database.initialize, hset, h, hest, hp]
        | error e =>
          rcases h2 with h | h <;>
            simp [ Database.initialize, hset, h, hest]
      · by_cases h3 : s._url.scheme = "sqlite"
        · cases hest : est.sqlite s._url.path with
          | ok c =>
            cases hp : db._database.poisoned <;>
              simp [ Database.initialize, hset, h1, h2, h3, hest, hp]
          | error e =>
            simp [ Database.initialize, hset, h1, h2, h3, hest]
        · cases hp : db._database.poisoned <;>
            simp [ Database.initialize, hset, h1, h2, h3, hp]

theorem lock_not_unknown (parse : String → Except Cause Url) (db : Database) :
    Database.lock parse db ≠ .ok (.ok .Unknown) := by
  cases hset : Database.settings parse db with
  | error e => simp [Database.lock, hset]
  | ok s =>
    cases hp : db._database.poisoned with
    | true => simp [Database.lock, hset, hp]
    | false =>
      cases hslot : db._database._connection with
      | none => simp [Database.lock, hset, hp, hslot]
      | some hdl =>
        by_cases h1 : s._url.scheme = "mysql"
        · cases hdl <;> simp [Database.lock, hset, hp, hslot, h1,
            Handle.downcast_mysql]
        · by_cases h2 : s._url.scheme = "postgres" ∨ s._url.scheme = "postgresql"
          · rcases h2 with h | h <;> cases hdl <;>
              simp [Database.lock, hset, hp, hslot, h, Handle.downcast_pg]
          · by_cases h3 : s._url.scheme = "sqlite"
            · cases hdl <;> simp [Database.lock, hset, hp, hslot, h1, h2, h3,
                Handle.downcast_sqlite]
            · simp [Database.lock, hset, hp, hslot, h1, h2, h3]

theorem interact_panic_iff (parse : String → Except Cause Url) (db : Database)
    {α : Type} (mysql_f : MysqlConnection → Except Cause α)
    (pg_f : PgConnection → Except Cause α)
    (sqlite_f : SqliteConnection → Except Cause α) :
    (∃ m, Database.interact parse db mysql_f pg_f sqlite_f = .panicked m) ↔
    (∃ m, Database.lock parse db = .panicked m) := by
  cases hl : Database.lock parse db with
  | panicked m => simp [Database.interact, hl]
  | ok res =>
    cases res with
    | error e => simp [Database.interact, hl]
    | ok conn =>
      cases conn with
      | Unknown => exact absurd hl (lock_not_unknown parse db)
      | Mysql c => simp [Database.interact, hl]
      | Pg c => simp [Database.interact, hl]
      | Sqlite c => simp [Database.interact, hl]

theorem lock_panic_iff (parse : String → Except Cause Url) (db : Database) :
    (∃ m, Database.lock parse db = .panicked m) ↔
    (∃ s hdl, Database.settings parse db = .ok s ∧
      db._database.poisoned = false ∧
      db._database._connection = some hdl ∧
      s._url.scheme ≠ "mysql" ∧ s._url.scheme ≠ "postgres" ∧
      s._url.scheme ≠ "postgresql" ∧ s._url.scheme ≠ "sqlite") := by
  cases hset : Database.settings parse db with
  | error e => simp [Database.lock, hset]
  | ok s =>
    cases hp : db._database.poisoned with
    | true => simp [Database.lock, hset, hp]
    | false =>
      cases hslot : db._database._connection with
      | none => simp [Database.lock, hset, hp, hslot]
      | some hdl =>
        by_cases h1 : s._url.scheme = "mysql"
        · cases hdl <;> simp [Database.lock, hset, hp, hslot, h1,
            Handle.downcast_mysql]
        · by_cases h2 : s._url.scheme = "postgres" ∨ s._url.scheme = "postgresql"
          · rcases h2 with h | h <;> cases hdl <;>
              simp [Database.lock, hset, hp, hslot, h, Handle.downcast_pg]
          · by_cases h3 : s._url.scheme = "sqlite"
            · cases hdl <;> simp [Database.lock, hset, hp, hslot, h1, h2, h3,
                Handle.downcast_sqlite]
            · push_neg at h2
              simp [Database.lock, hset, hp, hslot, h1, h2.1, h2.2, h3]

/-- Claim C3 as amended: the public surface can panic, in exactly two
ways.  `Database::initialize` panics precisely when Settings resolve, the
scheme names a known backend, and that backend's native establishment
fails (the `unwrap` on `establish`); `Database::interact` panics precisely
when Settings resolve, the cell is unpoisoned, the slot holds a handle,
and the scheme matches no known backend (the `unimplemented!` reached
through `lock`).  All other paths of the public operations
(`Settings::new`, `Connection::initialized`, `Database::initialized`,
`Database::settings` and the remaining branches of `initialize`, `lock`
and `interact`) return typed results. -/
theorem c3_amended_panic_characterization :
    (∀ (est : Establishers) (parse : String → Except Cause Url)
        (db : Database),
      (∃ m, Database.initialize est parse db = .panicked m) ↔
      (∃ s, Database.settings parse db = .ok s ∧
        ((s._url.scheme = "mysql" ∧ ∃ e, est.mysql s._url.as_str = .error e) ∨
         ((s._url.scheme = "postgres" ∨ s._url.scheme = "postgresql") ∧
           ∃ e, est.pg s._url.as_str = .error e) ∨
         (s._url.scheme = "sqlite" ∧
           ∃ e, est.sqlite s._url.path = .error e)))) ∧
    (∀ (parse : String → Except Cause Url) (db : Database) {α : Type}
        (mysql_f : MysqlConnection → Except Cause α)
        (pg_f : PgConnection → Except Cause α)
        (sqlite_f : SqliteConnection → Except Cause α),
      (∃ m, Database.interact parse db mysql_f pg_f sqlite_f = .panicked m) ↔
      (∃ s hdl, Database.settings parse db = .ok s ∧
        db._database.poisoned = false ∧
        db._database._connection = some hdl ∧
        s._url.scheme ≠ "mysql" ∧ s._url.scheme ≠ "postgres" ∧
        s._url.scheme ≠ "postgresql" ∧ s._url.scheme ≠ "sqlite")) :=
  ⟨initialize_panic_iff, fun parse db => fun {α} mysql_f pg_f sqlite_f =>
    (interact_panic_iff parse db mysql_f pg_f sqlite_f).trans
      (lock_panic_iff parse db)⟩

/-- Counterexample to C3 as stated: a failing mysql establishment makes
the establishment step panic (the `unwrap`), and an unrecognized scheme
with a present handle makes `interact` panic (the `unimplemented!`);
neither returns a typed Result. -/
theorem c3_counterexample :
    Database.initialize failingMysqlEst demoParse dbEmptyMysql
      = .panicked
        "called `Result::unwrap()` on an `Err` value: connection refused" ∧
    Database.interact demoParse dbGopherWithHandle
      (fun _ => (.ok 0 : Except Cause Nat)) (fun _ => .ok 0) (fun _ => .ok 0)
      = .panicked "not implemented" := by
  refine ⟨by decide, by decide⟩

/-- Witness for the amended C3 at concrete inputs on both panic paths. -/
theorem c3_amended_panic_characterization_witness :
    (∃ m, Database.initialize failingMysqlEst demoParse dbEmptyMysql
      = .panicked m) ∧
    (∃ m, Database.interact demoParse dbGopherWithHandle
      (fun _ => (.ok 0 : Except Cause Nat)) (fun _ => .ok 0) (fun _ => .ok 0)
      = .panicked m) := by
  constructor
  · exact (c3_amended_panic_characterization.1 failingMysqlEst demoParse
      dbEmptyMysql).mpr
      ⟨⟨⟨"mysql", "mysql://db", "/"⟩⟩, by decide,
        Or.inl ⟨rfl, ⟨"connection refused"⟩, rfl⟩⟩
  · exact (c3_amended_panic_characterization.2 demoParse dbGopherWithHandle
      (fun _ => (.ok 0 : Except Cause Nat)) (fun _ => .ok 0)
      (fun _ => .ok 0)).mpr
      ⟨⟨⟨"gopher", "gopher://db", "/"⟩⟩, .mysql ⟨7⟩, by decide, rfl, rfl,
        by decide, by decide, by decide, by decide⟩
